import Mathlib

/-!
Shallow embedding of `src/server.js` (Express + MongoDB game-collection CRUD API)
and verification of the frozen specification claims about it.

JavaScript values that can appear in request payloads and stored documents are
modelled by `JsValue` (numbers as `Int`; the claims only involve integral
values).  A payload (a JSON body) is an association list; property access
`payload[k]` is `jget`, returning `JsValue.undefined` for an absent key, mirroring
JavaScript's `undefined`.  The MongoDB collection is a `List Game` in natural
(insertion) order; operation timestamps (`new Date()`) are `Nat` parameters.
`new Date().getFullYear()`, read once when the schema object is built, is the
`year : Int` parameter of the validator.
-/

namespace BddJeux

/-- A JavaScript value as it can occur in a JSON payload or a stored document.
`undefined` models JavaScript `undefined` (an absent property). -/
inductive JsValue where
  | undefined
  | null
  | bool (b : Bool)
  | num (n : Int)
  | str (s : String)
  | arr (elems : List JsValue)

mutual

/-- JavaScript strict equality `===` between two modelled values. -/
def JsValue.beq : JsValue → JsValue → Bool
  | .undefined, .undefined => true
  | .null, .null => true
  | .bool a, .bool b => a == b
  | .num a, .num b => a == b
  | .str a, .str b => a == b
  | .arr a, .arr b => beqList a b
  | _, _ => false

/-- Element-wise equality of two value lists. -/
def beqList : List JsValue → List JsValue → Bool
  | [], [] => true
  | x :: xs, y :: ys => JsValue.beq x y && beqList xs ys
  | _, _ => false

end

instance : BEq JsValue := ⟨JsValue.beq⟩

/-- `typeof v === 'string'`. -/
def JsValue.isStr : JsValue → Bool
  | .str _ => true
  | _ => false

/-- `Array.isArray(v)`. -/
def JsValue.isArr : JsValue → Bool
  | .arr _ => true
  | _ => false

/-- `typeof v === 'number'`. -/
def JsValue.isNum : JsValue → Bool
  | .num _ => true
  | _ => false

/-- `typeof v === 'boolean'`. -/
def JsValue.isBool : JsValue → Bool
  | .bool _ => true
  | _ => false

/-- JavaScript truthiness of a value (`!!v`, `if (v)`). -/
def truthy : JsValue → Bool
  | .undefined => false
  | .null => false
  | .bool b => b
  | .num n => n != 0
  | .str s => s != ""
  | .arr _ => true

/-- Nullish coalescing `v ?? d`. -/
def nullishOr (v d : JsValue) : JsValue :=
  match v with
  | .undefined => d
  | .null => d
  | w => w

/-- A JSON request body: association list from property names to values. -/
def Payload := List (String × JsValue)

/-- Property access `payload[k]`; absent keys read as `undefined`. -/
def jget (p : Payload) (k : String) : JsValue :=
  match p.find? (fun kv => kv.1 == k) with
  | some kv => kv.2
  | none => .undefined

/-- `v === undefined`. -/
def JsValue.isUndefined : JsValue → Bool
  | .undefined => true
  | _ => false

/-- `v === null`. -/
def JsValue.isNull : JsValue → Bool
  | .null => true
  | _ => false

/-- One entry of the declarative `gameSchema` rule table of `server.js`:
type tag, required flag and the optional numeric/length bounds. -/
structure FieldSchema where
  type : String
  required : Bool := false
  minLength : Option Nat := none
  minItems : Option Nat := none
  min : Option Int := none
  max : Option Int := none

/-- The `gameSchema` object of `server.js` (lines 25-34), in declaration
order.  `year` is `new Date().getFullYear()` evaluated when the module is
loaded; it only occurs as the upper bound of `annee_sortie`.  Note that
`favorite` is NOT part of the schema. -/
def gameSchema (year : Int) : List (String × FieldSchema) :=
  [ ("titre", { type := "string", required := true, minLength := some 1 }),
    ("genre", { type := "array", required := true, minItems := some 1 }),
    ("plateforme", { type := "array", required := true, minItems := some 1 }),
    ("editeur", { type := "string" }),
    ("developpeur", { type := "string" }),
    ("annee_sortie", { type := "number", min := some 1970, max := some year }),
    ("temps_jeu_heures", { type := "number", min := some 0 }),
    ("termine", { type := "boolean" }) ]

/-- JavaScript `s.trim()`: strips leading and trailing whitespace
(computable by structural recursion on the character list). -/
def jsTrim (s : String) : String :=
  ⟨((s.data.dropWhile Char.isWhitespace).reverse.dropWhile Char.isWhitespace).reverse⟩

/-- The presence test of the required-field check in `validateGame`:
`v === undefined || v === null || (typeof v === 'string' && v.trim() === '')
|| (Array.isArray(v) && v.length === 0)`. -/
def isMissingValue : JsValue → Bool
  | .undefined => true
  | .null => true
  | .str s => jsTrim s == ""
  | .arr xs => xs.isEmpty
  | _ => false

/-- The body of the `forEach` loop of `validateGame` for one schema entry
`(k, s)`: the list of error strings pushed for that field.  A failed
required check `return`s early, skipping the type/range checks of the same
field; the type/range checks each push independently (errors accumulate). -/
def checkField (isUpdate : Bool) (p : Payload) : String × FieldSchema → List String
  | (k, s) =>
    let v := jget p k
    if !isUpdate && s.required && isMissingValue v then
      [k ++ " requis"]
    else if !v.isUndefined && !v.isNull then
      (if s.type == "string" && !v.isStr then [k ++ " doit être une chaîne"] else []) ++
      (if s.type == "array" && !v.isArr then [k ++ " doit être un tableau"] else []) ++
      (if s.type == "number" && !v.isNum then [k ++ " doit être un nombre"] else []) ++
      (if s.type == "boolean" && !v.isBool then [k ++ " doit être boolean"] else []) ++
      (match s.min, v with
       | some m, .num n => if n < m then [k ++ " doit être >= " ++ toString m] else []
       | _, _ => []) ++
      (match s.max, v with
       | some m, .num n => if m < n then [k ++ " doit être <= " ++ toString m] else []
       | _, _ => []) ++
      (match s.minItems, v with
       | some mi, .arr xs => if xs.length < mi then
           [k ++ " doit contenir au moins " ++ toString mi ++ " élément(s)"] else []
       | _, _ => []) ++
      (match s.minLength, v with
       | some ml, .str t => if t.length < ml then [k ++ " trop court"] else []
       | _, _ => [])
    else []

/-- `validateGame(payload, { isUpdate })` (lines 36-57): folds the schema
entries in order, appending each field's pushed errors to the accumulator. -/
def validateGame (year : Int) (p : Payload) (isUpdate : Bool) : List String :=
  (gameSchema year).foldl (fun errors kv => errors ++ checkField isUpdate p kv) []

/-- A stored MongoDB document of the `games` collection.  The `_id` is the
ObjectId rendered as its hex string; timestamps are `Nat`.  The data fields
keep the dynamic `JsValue` type: an update may legally store `null` there. -/
structure Game where
  _id : String
  titre : JsValue
  genre : JsValue
  plateforme : JsValue
  editeur : JsValue
  developpeur : JsValue
  annee_sortie : JsValue
  temps_jeu_heures : JsValue
  termine : JsValue
  favorite : JsValue
  date_ajout : Nat
  date_modification : Nat

/-- The external (response-shaped) representation produced by `toResp`:
`{ id: _id.toString(), ...rest }`. -/
structure GameResp where
  id : String
  titre : JsValue
  genre : JsValue
  plateforme : JsValue
  editeur : JsValue
  developpeur : JsValue
  annee_sortie : JsValue
  temps_jeu_heures : JsValue
  termine : JsValue
  favorite : JsValue
  date_ajout : Nat
  date_modification : Nat

/-- `toResp(doc)` (lines 59-63) on a non-null document: replaces the raw
`_id` by the string `id` field and keeps all other fields. -/
def toResp (g : Game) : GameResp :=
  { id := g._id, titre := g.titre, genre := g.genre, plateforme := g.plateforme,
    editeur := g.editeur, developpeur := g.developpeur,
    annee_sortie := g.annee_sortie, temps_jeu_heures := g.temps_jeu_heures,
    termine := g.termine, favorite := g.favorite,
    date_ajout := g.date_ajout, date_modification := g.date_modification }

/-- `ObjectId.isValid(s)` for a string argument: a 24-character hex string,
or any 12-character string (interpreted as 12 raw bytes). -/
def isHexChar (c : Char) : Bool :=
  c.isDigit || ('a' ≤ c && c ≤ 'f') || ('A' ≤ c && c ≤ 'F')

/-- Identifier-syntax validity check, independent of existence. -/
def isValidObjectId (s : String) : Bool :=
  (s.length == 24 && s.toList.all isHexChar) || s.length == 12

/-- The distinguishable failure kinds of the API handlers. -/
inductive ApiError where
  | validation (errors : List String)
  | invalidId
  | notFound
  | noFields
  deriving DecidableEq

/-- The store, in MongoDB natural (insertion) order. -/
abbrev Store := List Game

/-- `findOne({_id})`: the first document with the given id, if any. -/
def findById (id : String) (store : Store) : Option Game :=
  store.find? (fun g => g._id == id)

/-- `findOneAndUpdate` / replace of the single matching document: the first
document whose `_id` matches is replaced, the rest of the store is kept. -/
def replaceFirstById (id : String) (g' : Game) : Store → Store
  | [] => []
  | h :: t => if h._id == id then g' :: t else h :: replaceFirstById id g' t

/-- `deleteOne({_id})`: removes the first matching document. -/
def removeFirstById (id : String) : Store → Store
  | [] => []
  | h :: t => if h._id == id then t else h :: removeFirstById id t

/-- `POST /api/games` (lines 66-93).  Validates in create mode, then builds
the document with the defaulting of the source (`|| null`, `?? null`,
`?? 0`, `!!`), stamps both timestamps with `now` and inserts it (MongoDB
appends in natural order under the fresh id `newId`).  Returns the new
store together with the handler outcome. -/
def createGame (year : Int) (p : Payload) (now : Nat) (newId : String)
    (store : Store) : Store × Except ApiError Game :=
  let errors := validateGame year p false
  if errors = [] then
    let doc : Game :=
      { _id := newId,
        titre := jget p "titre",
        genre := jget p "genre",
        plateforme := jget p "plateforme",
        editeur := if truthy (jget p "editeur") then jget p "editeur" else .null,
        developpeur := if truthy (jget p "developpeur") then jget p "developpeur" else .null,
        annee_sortie := nullishOr (jget p "annee_sortie") .null,
        temps_jeu_heures := nullishOr (jget p "temps_jeu_heures") (.num 0),
        termine := .bool (truthy (jget p "termine")),
        favorite := .bool (truthy (jget p "favorite")),
        date_ajout := now,
        date_modification := now }
    (store ++ [doc], .ok doc)
  else (store, .error (.validation errors))

/-- `GET /api/games/:id` (lines 116-127): invalid-id check, then lookup. -/
def getById (id : String) (store : Store) : Except ApiError Game :=
  if !isValidObjectId id then .error .invalidId
  else match findById id store with
    | none => .error .notFound
    | some g => .ok g

/-- The fixed `allowed` whitelist of `PUT /api/games/:id` (line 137). -/
def allowedFields : List String :=
  ["titre", "genre", "plateforme", "editeur", "developpeur", "annee_sortie",
   "temps_jeu_heures", "termine", "favorite"]

/-- The `$set` document of the update handler applied to a stored document:
each whitelisted key present in the payload (`!== undefined`) overwrites
the stored field, and `date_modification` is always stamped with `now`. -/
def applySet (p : Payload) (now : Nat) (g : Game) : Game :=
  { _id := g._id,
    titre := if (jget p "titre").isUndefined then g.titre else jget p "titre",
    genre := if (jget p "genre").isUndefined then g.genre else jget p "genre",
    plateforme := if (jget p "plateforme").isUndefined then g.plateforme else jget p "plateforme",
    editeur := if (jget p "editeur").isUndefined then g.editeur else jget p "editeur",
    developpeur := if (jget p "developpeur").isUndefined then g.developpeur else jget p "developpeur",
    annee_sortie := if (jget p "annee_sortie").isUndefined then g.annee_sortie else jget p "annee_sortie",
    temps_jeu_heures := if (jget p "temps_jeu_heures").isUndefined then g.temps_jeu_heures else jget p "temps_jeu_heures",
    termine := if (jget p "termine").isUndefined then g.termine else jget p "termine",
    favorite := if (jget p "favorite").isUndefined then g.favorite else jget p "favorite",
    date_ajout := g.date_ajout,
    date_modification := now }

/-- `PUT /api/games/:id` (lines 129-154): invalid-id check, update-mode
validation, whitelisting with the no-fields check
(`Object.keys(set).length === 0`), then `findOneAndUpdate` with not-found
check.  Returns the (possibly updated) store and the handler outcome. -/
def updateGame (year : Int) (id : String) (p : Payload) (now : Nat)
    (store : Store) : Store × Except ApiError Game :=
  if !isValidObjectId id then (store, .error .invalidId)
  else
    let errors := validateGame year p true
    if errors = [] then
      if allowedFields.all (fun k => (jget p k).isUndefined) then
        (store, .error .noFields)
      else match findById id store with
        | none => (store, .error .notFound)
        | some g =>
          let g' := applySet p now g
          (replaceFirstById id g' store, .ok g')
    else (store, .error (.validation errors))

/-- `DELETE /api/games/:id` (lines 156-167): invalid-id check, then
`deleteOne` with `deletedCount === 0` reported as not-found. -/
def deleteGame (id : String) (store : Store) : Store × Except ApiError Unit :=
  if !isValidObjectId id then (store, .error .invalidId)
  else match findById id store with
    | none => (store, .error .notFound)
    | some _ => (removeFirstById id store, .ok ())

/-- `POST /api/games/:id/favorite` (lines 169-185): invalid-id check,
lookup, then `findOneAndUpdate` flipping the truthiness of the stored
`favorite` and stamping `date_modification`. -/
def toggleFavorite (id : String) (now : Nat) (store : Store) :
    Store × Except ApiError Game :=
  if !isValidObjectId id then (store, .error .invalidId)
  else match findById id store with
    | none => (store, .error .notFound)
    | some g =>
      let g' : Game :=
        { g with favorite := .bool (!truthy g.favorite), date_modification := now }
      (replaceFirstById id g' store, .ok g')

/-- The query string of `GET /api/games`: the four recognised parameters,
each either absent or a string. -/
structure Query where
  genre : Option String := none
  plateforme : Option String := none
  termine : Option String := none
  favorite : Option String := none

/-- `if (genre) filter.genre = genre;`: the filter entry contributed by a
string query parameter — applied only when present and truthy (non-empty). -/
def strFilter (name : String) (v : Option String) : List (String × JsValue) :=
  match v with
  | some s => if s == "" then [] else [(name, .str s)]
  | none => []

/-- `if (termine === 'true') ...; if (termine === 'false') ...;`: the filter
entry contributed by a boolean-valued query parameter — applied only for
the literal strings `"true"` and `"false"`, ignored otherwise. -/
def boolFilter (name : String) (v : Option String) : List (String × JsValue) :=
  match v with
  | some s =>
      (if s == "true" then [(name, .bool true)] else []) ++
      (if s == "false" then [(name, .bool false)] else [])
  | none => []

/-- The MongoDB `filter` object built by the list handler (lines 98-105). -/
def buildFilter (q : Query) : List (String × JsValue) :=
  strFilter "genre" q.genre ++ strFilter "plateforme" q.plateforme ++
  boolFilter "termine" q.termine ++ boolFilter "favorite" q.favorite

/-- The stored field a filter key refers to. -/
def gameField (g : Game) : String → JsValue
  | "genre" => g.genre
  | "plateforme" => g.plateforme
  | "termine" => g.termine
  | "favorite" => g.favorite
  | _ => .undefined

/-- MongoDB equality match of a query value `q` against a stored field `v`:
the field equals the value, or the field is an array containing it. -/
def fieldMatches (v q : JsValue) : Bool :=
  match v with
  | .arr xs => JsValue.beq (.arr xs) q || xs.any (fun x => JsValue.beq x q)
  | w => JsValue.beq w q

/-- A document matches a filter when every filter entry matches. -/
def matchesFilter (f : List (String × JsValue)) (g : Game) : Bool :=
  f.all (fun kv => fieldMatches (gameField g kv.1) kv.2)

/-- The sort relation of `.sort({ date_ajout: -1 })`: most recently added
first. -/
def dateDesc (a b : Game) : Prop := b.date_ajout ≤ a.date_ajout

instance : DecidableRel dateDesc := fun a b => Nat.decLe b.date_ajout a.date_ajout

instance : IsTotal Game dateDesc :=
  ⟨fun a b => (Nat.le_total b.date_ajout a.date_ajout).elim Or.inl Or.inr⟩

instance : IsTrans Game dateDesc :=
  ⟨fun _ _ _ hab hbc => Nat.le_trans hbc hab⟩

/-- `GET /api/games` (lines 96-113): find with the built filter, sorted by
`date_ajout` descending. -/
def listGames (q : Query) (store : Store) : List Game :=
  List.insertionSort dateDesc (store.filter (matchesFilter (buildFilter q)))

/-- The body of the export handler (lines 201-210): `find({})` over the
whole collection, shaped through `toResp`. -/
def exportAll (store : Store) : List GameResp :=
  (store.filter (matchesFilter [])).map toResp

/-- One segment of an Express route pattern: a literal, or a `:name`
parameter. -/
inductive Seg where
  | lit (s : String)
  | param (name : String)

/-- Express pattern matching of one route against a path, segment by
segment; a successful match returns the captured parameters. -/
def matchSegs : List Seg → List String → Option (List (String × String))
  | [], [] => some []
  | .lit s :: ps, x :: xs => if s == x then matchSegs ps xs else none
  | .param n :: ps, x :: xs => (matchSegs ps xs).map (fun ms => (n, x) :: ms)
  | _, _ => none

/-- The GET routes of `server.js`, as route markers. -/
inductive GetRoute where
  | gamesList
  | gamesGetOne
  | statsRoute
  | gamesExport
  deriving DecidableEq

/-- The GET routes in REGISTRATION order (lines 96, 116, 187, 201): the
parameterised `/api/games/:id` route is registered BEFORE
`/api/games/export`. -/
def getRoutes : List (GetRoute × List Seg) :=
  [ (.gamesList, [.lit "api", .lit "games"]),
    (.gamesGetOne, [.lit "api", .lit "games", .param "id"]),
    (.statsRoute, [.lit "api", .lit "stats"]),
    (.gamesExport, [.lit "api", .lit "games", .lit "export"]) ]

/-- Express dispatch of a GET request: the first registered route whose
pattern matches the path wins. -/
def dispatchGet (path : List String) : Option (GetRoute × List (String × String)) :=
  getRoutes.findSome? (fun rp => (matchSegs rp.2 path).map (fun ms => (rp.1, ms)))

/-! ### Concrete data used by witnesses and counterexamples -/

/-- The create payload of the spec's Celeste example. -/
def celestePayload : Payload :=
  [("titre", .str "Celeste"), ("genre", .arr [.str "platformer"]),
   ("plateforme", .arr [.str "PC"])]

/-- A well-formed ObjectId hex string. -/
def hexId : String := "0123456789abcdef01234567"

/-- A second, different well-formed ObjectId hex string. -/
def hexId2 : String := "00000000000000000000000b"

/-- The document `createGame` builds from `celestePayload` under id `newId`
at time `now`. -/
def celesteDoc (newId : String) (now : Nat) : Game :=
  { _id := newId, titre := .str "Celeste", genre := .arr [.str "platformer"],
    plateforme := .arr [.str "PC"], editeur := .null, developpeur := .null,
    annee_sortie := .null, temps_jeu_heures := .num 0,
    termine := .bool false, favorite := .bool false,
    date_ajout := now, date_modification := now }

/-- The Celeste document after a successful update that sets `titre` to a
single space at time 6. -/
def blankTitreDoc : Game :=
  { celesteDoc hexId 5 with titre := .str " ", date_modification := 6 }

/-- The document created from `celestePayload` extended with
`favorite: "yes"`. -/
def favYesDoc : Game :=
  { celesteDoc hexId 5 with favorite := .bool true }

/-- An update payload whose single key is outside the whitelist. -/
def bogusPayload : Payload := [("bogus", .num 7)]

/-! ### General lemmas about the validator -/

theorem foldl_append_acc {α β : Type} (f : α → List β) :
    ∀ (l : List α) (acc : List β),
      l.foldl (fun a x => a ++ f x) acc = acc ++ l.flatMap f
  | [], acc => by simp
  | x :: xs, acc => by
    simp [List.foldl_cons, foldl_append_acc f xs, List.append_assoc]

theorem validateGame_eq_flatMap (year : Int) (p : Payload) (u : Bool) :
    validateGame year p u = (gameSchema year).flatMap (checkField u p) := by
  simpa using foldl_append_acc (checkField u p) (gameSchema year) []

theorem checkField_nil_of_validate {year : Int} {p : Payload} {u : Bool}
    (h : validateGame year p u = []) {kv : String × FieldSchema}
    (hkv : kv ∈ gameSchema year) : checkField u p kv = [] := by
  rw [validateGame_eq_flatMap] at h
  exact List.flatMap_eq_nil_iff.mp h kv hkv

theorem jget_cons_ne {k k' : String} (h : k ≠ k') (v : JsValue) (p : Payload) :
    jget ((k, v) :: p) k' = jget p k' := by
  simp [jget, List.find?_cons, h]

theorem checkField_ext {p p' : Payload} {u : Bool} :
    ∀ kv : String × FieldSchema, jget p kv.1 = jget p' kv.1 →
      checkField u p kv = checkField u p' kv
  | (k, s), h => by simp only [checkField, h]

theorem validateGame_ext {year : Int} {p p' : Payload} {u : Bool}
    (h : ∀ kv ∈ gameSchema year, jget p kv.1 = jget p' kv.1) :
    validateGame year p u = validateGame year p' u := by
  rw [validateGame_eq_flatMap, validateGame_eq_flatMap]
  have hgen : ∀ l : List (String × FieldSchema),
      (∀ kv ∈ l, jget p kv.1 = jget p' kv.1) →
      l.flatMap (checkField u p) = l.flatMap (checkField u p') := by
    intro l
    induction l with
    | nil => intro _; rfl
    | cons x xs ih =>
      intro hx
      simp only [List.flatMap_cons]
      rw [checkField_ext x (hx x (by simp)), ih (fun kv hkv => hx kv (by simp [hkv]))]
  exact hgen _ h

theorem gameSchema_key_mem_allowed {year : Int} :
    ∀ kv ∈ gameSchema year, kv.1 ∈ allowedFields := by
  intro kv h
  simp only [gameSchema, List.mem_cons, List.not_mem_nil, or_false] at h
  rcases h with h | h | h | h | h | h | h | h <;> subst h <;> simp [allowedFields]

theorem gameSchema_key_ne_favorite {year : Int} :
    ∀ kv ∈ gameSchema year, kv.1 ≠ "favorite" := by
  intro kv h
  simp only [gameSchema, List.mem_cons, List.not_mem_nil, or_false] at h
  rcases h with h | h | h | h | h | h | h | h <;> subst h <;> simp

theorem validateGame_cons_not_schema {year : Int} {k : String} {v : JsValue}
    {p : Payload} {u : Bool} (hk : ∀ kv ∈ gameSchema year, kv.1 ≠ k) :
    validateGame year ((k, v) :: p) u = validateGame year p u :=
  validateGame_ext (fun kv hkv => jget_cons_ne (Ne.symm (hk kv hkv)) v p)

/-! ### General lemmas about the update whitelist -/

theorem jget_allowed_cons {k : String} (hk : k ∉ allowedFields) (v : JsValue)
    (p : Payload) : ∀ k' ∈ allowedFields, jget ((k, v) :: p) k' = jget p k' :=
  fun k' hk' => jget_cons_ne (fun he => hk (by rw [he]; exact hk')) v p

theorem applySet_cons {k : String} (hk : k ∉ allowedFields) (v : JsValue)
    (p : Payload) (now : Nat) (g : Game) :
    applySet ((k, v) :: p) now g = applySet p now g := by
  have h := jget_allowed_cons hk v p
  simp only [applySet,
    h "titre" (by simp [allowedFields]), h "genre" (by simp [allowedFields]),
    h "plateforme" (by simp [allowedFields]), h "editeur" (by simp [allowedFields]),
    h "developpeur" (by simp [allowedFields]), h "annee_sortie" (by simp [allowedFields]),
    h "temps_jeu_heures" (by simp [allowedFields]), h "termine" (by simp [allowedFields]),
    h "favorite" (by simp [allowedFields])]

theorem allowed_all_cons {k : String} (hk : k ∉ allowedFields) (v : JsValue)
    (p : Payload) :
    (allowedFields.all fun k' => (jget ((k, v) :: p) k').isUndefined) =
      (allowedFields.all fun k' => (jget p k').isUndefined) := by
  have h := jget_allowed_cons hk v p
  simp only [allowedFields, List.all_cons, List.all_nil,
    h "titre" (by simp [allowedFields]), h "genre" (by simp [allowedFields]),
    h "plateforme" (by simp [allowedFields]), h "editeur" (by simp [allowedFields]),
    h "developpeur" (by simp [allowedFields]), h "annee_sortie" (by simp [allowedFields]),
    h "temps_jeu_heures" (by simp [allowedFields]), h "termine" (by simp [allowedFields]),
    h "favorite" (by simp [allowedFields])]

theorem updateGame_cons_not_allowed {year : Int} {id : String} {k : String}
    {v : JsValue} {p : Payload} {now : Nat} {store : Store}
    (hk : k ∉ allowedFields) :
    updateGame year id ((k, v) :: p) now store = updateGame year id p now store := by
  have hval : validateGame year ((k, v) :: p) true = validateGame year p true :=
    validateGame_cons_not_schema
      (fun kv hkv he => hk (by rw [← he]; exact gameSchema_key_mem_allowed kv hkv))
  simp only [updateGame, hval, allowed_all_cons hk, applySet_cons hk]

/-! ### General lemmas about the store operations -/

theorem findById_removeFirst_self {id : String} :
    ∀ {store : Store}, (store.map Game._id).Nodup →
      findById id (removeFirstById id store) = none := by
  intro store
  induction store with
  | nil => intro _; rfl
  | cons h t ih =>
    intro hnd
    rw [List.map_cons, List.nodup_cons] at hnd
    by_cases hh : (h._id == id) = true
    · have hid : h._id = id := by simpa using hh
      simp only [removeFirstById, if_pos hh]
      apply List.find?_eq_none.mpr
      intro g hg hgid
      exact hnd.1 (by
        rw [← hid] at hgid
        have : g._id = h._id := by simpa using hgid
        exact this ▸ List.mem_map_of_mem Game._id hg)
    · have hh' : (h._id == id) = false := by simpa using hh
      simp only [removeFirstById, hh', Bool.false_eq_true, if_false, findById,
        List.find?_cons]
      exact ih hnd.2

/-! ### Lemmas about the validation of `titre` and `annee_sortie` -/

theorem titre_schema_mem (year : Int) :
    ("titre", ({ type := "string", required := true, minLength := some 1 } : FieldSchema)) ∈
      gameSchema year := by
  simp [gameSchema]

theorem create_titre_of_validate {year : Int} {p : Payload}
    (hv : validateGame year p false = []) :
    ∃ t, jget p "titre" = .str t ∧ jsTrim t ≠ "" := by
  have hc := checkField_nil_of_validate hv (titre_schema_mem year)
  rcases hveq : jget p "titre" with _ | _ | b | n | t | xs
  · simp [checkField, hveq, isMissingValue] at hc
  · simp [checkField, hveq, isMissingValue] at hc
  · simp [checkField, hveq, isMissingValue, JsValue.isUndefined, JsValue.isNull,
      JsValue.isStr] at hc
  · simp [checkField, hveq, isMissingValue, JsValue.isUndefined, JsValue.isNull,
      JsValue.isStr] at hc
  · by_cases ht : jsTrim t = ""
    · exfalso
      simp [checkField, hveq, isMissingValue, ht] at hc
    · exact ⟨t, rfl, ht⟩
  · rcases xs with _ | ⟨x, xs⟩
    · simp [checkField, hveq, isMissingValue] at hc
    · simp [checkField, hveq, isMissingValue, JsValue.isUndefined, JsValue.isNull,
        JsValue.isStr] at hc

theorem update_titre_of_validate {year : Int} {p : Payload}
    (hv : validateGame year p true = []) :
    jget p "titre" = .undefined ∨ jget p "titre" = .null ∨
      ∃ t, jget p "titre" = .str t ∧ 1 ≤ t.length := by
  have hc := checkField_nil_of_validate hv (titre_schema_mem year)
  rcases hveq : jget p "titre" with _ | _ | b | n | t | xs
  · exact Or.inl rfl
  · exact Or.inr (Or.inl rfl)
  · simp [checkField, hveq, JsValue.isUndefined, JsValue.isNull, JsValue.isStr] at hc
  · simp [checkField, hveq, JsValue.isUndefined, JsValue.isNull, JsValue.isStr] at hc
  · refine Or.inr (Or.inr ⟨t, rfl, ?_⟩)
    simp [checkField, hveq, JsValue.isUndefined, JsValue.isNull, JsValue.isStr] at hc
    omega
  · simp [checkField, hveq, JsValue.isUndefined, JsValue.isNull, JsValue.isStr] at hc

theorem validate_annee1969 {year : Int} (hy : 1969 ≤ year) :
    validateGame year [("annee_sortie", .num 1969)] true =
      ["annee_sortie doit être >= 1970"] := by
  have h : ¬ (year < (1969 : Int)) := not_lt.mpr hy
  simp [validateGame, gameSchema, checkField, jget, isMissingValue, JsValue.isUndefined,
    JsValue.isNull, JsValue.isStr, JsValue.isArr, JsValue.isNum, JsValue.isBool, h]
  rfl

/-! ### The claims -/

/-- C1: the claim says a GET request to the export route succeeds for every
store state with all records mapped through `toResp`.  In fact Express
dispatches `/api/games/export` to the earlier-registered `/api/games/:id`
route with `id = "export"`, which is not a valid ObjectId, so the request is
answered with the invalid-id error for EVERY store state; the export handler
(which would indeed return `store.map toResp`) is unreachable dead code. -/
theorem exportRoute_shadowed (store : Store) :
    dispatchGet ["api", "games", "export"] = some (.gamesGetOne, [("id", "export")]) ∧
    getById "export" store = .error .invalidId ∧
    exportAll store = store.map toResp := by
  refine ⟨by decide, rfl, ?_⟩
  unfold exportAll
  have hfilter : List.filter (matchesFilter []) store = store :=
    List.filter_eq_self.mpr (fun g _ => rfl)
  rw [hfilter]

/-- C2 counterexample: a payload whose `favorite` is the non-boolean,
non-null string `"yes"` validates with NO errors at all, in create mode
(with the required fields supplied) as well as in update mode — the claimed
`favorite doit être …` type error is never produced. -/
theorem favorite_type_error_cex :
    validateGame 2026 (("favorite", .str "yes") :: celestePayload) false = [] ∧
    validateGame 2026 [("favorite", .str "yes")] true = [] :=
  ⟨rfl, rfl⟩

/-- C2 amended: `favorite` is not among the validator's declared schema
fields, so `validate` ignores it entirely: for every payload, every value of
`favorite` and both modes, the error list is the one of the payload without
the `favorite` key (in particular no error ever mentions `favorite`). -/
theorem favorite_never_validated (year : Int) (v : JsValue) (p : Payload) (u : Bool) :
    validateGame year (("favorite", v) :: p) u = validateGame year p u :=
  validateGame_cons_not_schema gameSchema_key_ne_favorite

/-- C3 counterexample: starting from the empty store, the Celeste record is
created by `createGame`, and a subsequent `updateGame` with
`{titre: " "}` SUCCEEDS, leaving a stored record whose `titre` is the
whitespace-only string `" "` (empty after trimming), refuting the claimed
reachable-state invariant. -/
theorem titre_invariant_cex :
    createGame 2026 celestePayload 5 hexId [] =
      ([celesteDoc hexId 5], .ok (celesteDoc hexId 5)) ∧
    updateGame 2026 hexId [("titre", .str " ")] 6 [celesteDoc hexId 5] =
      ([blankTitreDoc], .ok blankTitreDoc) ∧
    blankTitreDoc.titre = .str " " ∧ jsTrim " " = "" :=
  ⟨rfl, rfl, rfl, rfl⟩

/-- C3 amended: every record produced by a successful create has a `titre`
that is a string non-empty after trimming; but update-mode validation only
guarantees that a present `titre` is `null` or a string of length ≥ 1, so a
successful update may set `titre` to `null` or to a whitespace-only string
and the invariant is not preserved by updates. -/
theorem titre_invariant_amended :
    (∀ (year : Int) (p : Payload) (now : Nat) (newId : String) (store s' : Store) (g : Game),
        createGame year p now newId store = (s', .ok g) →
        ∃ t, g.titre = .str t ∧ jsTrim t ≠ "") ∧
    (∀ (year : Int) (p : Payload), validateGame year p true = [] →
        jget p "titre" = .undefined ∨ jget p "titre" = .null ∨
          ∃ t, jget p "titre" = .str t ∧ 1 ≤ t.length) := by
  constructor
  · intro year p now newId store s' g h
    by_cases hv : validateGame year p false = []
    · simp [createGame, hv] at h
      obtain ⟨h1, h2⟩ := h
      subst h2
      obtain ⟨t, ht, htr⟩ := create_titre_of_validate hv
      exact ⟨t, ht, htr⟩
    · simp [createGame, hv] at h
  · exact fun year p hv => update_titre_of_validate hv

/-- C3 amended, witness: the create part applied to the concrete Celeste
creation. -/
theorem titre_invariant_amended_witness :
    ∃ t, (celesteDoc hexId 5).titre = .str t ∧ jsTrim t ≠ "" :=
  titre_invariant_amended.1 2026 celestePayload 5 hexId [] [celesteDoc hexId 5]
    (celesteDoc hexId 5) rfl

/-- C4: for every existing record id (well-formed, current year ≥ 1969),
`update(id, {annee_sortie: 1969})` fails with the ValidationError
`annee_sortie doit être >= 1970` and the store — every field of every
record, `date_modification` included — is returned unchanged. -/
theorem update_annee1969_rejected (year : Int) (id : String) (now : Nat) (store : Store)
    (hy : 1969 ≤ year) (hid : isValidObjectId id = true)
    (_hex : ∃ g ∈ store, g._id = id) :
    updateGame year id [("annee_sortie", .num 1969)] now store =
      (store, .error (.validation ["annee_sortie doit être >= 1970"])) := by
  simp [updateGame, hid, validate_annee1969 hy]

/-- C4 witness: the rejected update against a one-record store. -/
theorem update_annee1969_rejected_witness :
    updateGame 2026 hexId [("annee_sortie", .num 1969)] 7 [celesteDoc hexId 5] =
      ([celesteDoc hexId 5], .error (.validation ["annee_sortie doit être >= 1970"])) :=
  update_annee1969_rejected 2026 hexId 7 [celesteDoc hexId 5] (by decide) (by decide)
    ⟨celesteDoc hexId 5, List.mem_singleton.mpr rfl, rfl⟩

/-- C5: for a well-formed id and a payload passing update-mode validation,
the update fails with NoFieldsError exactly when every whitelisted field is
absent from the payload; any key outside the whitelist is dropped — adding
it to a payload changes nothing of the update, so it is never persisted —
and `update(id, {})` fails with NoFieldsError. -/
theorem update_noFields_iff (year : Int) (id : String) (p : Payload) (now : Nat)
    (store : Store) (hid : isValidObjectId id = true)
    (hval : validateGame year p true = []) :
    ((updateGame year id p now store).2 = .error .noFields ↔
      (allowedFields.all fun k => (jget p k).isUndefined) = true) ∧
    (∀ (k : String) (v : JsValue), k ∉ allowedFields →
      updateGame year id ((k, v) :: p) now store = updateGame year id p now store) ∧
    updateGame year id [] now store = (store, .error .noFields) := by
  refine ⟨?_, fun k v hk => updateGame_cons_not_allowed hk, ?_⟩
  · by_cases hall : (allowedFields.all fun k => (jget p k).isUndefined) = true
    · simp [updateGame, hid, hval, hall]
    · simp only [updateGame, hid, Bool.not_true, Bool.false_eq_true, if_false, hval,
        if_true, hall]
      cases hfind : findById id store with
      | none => simp [hall, hfind]
      | some g => simp [hall, hfind]
  · have hvnil : validateGame year [] true = [] := rfl
    have hall : (allowedFields.all fun k => (jget [] k).isUndefined) = true := rfl
    simp [updateGame, hid, hvnil, hall]

/-- C5 witness: a payload containing only the non-whitelisted key `bogus`
triggers NoFieldsError, and so does the empty payload. -/
theorem update_noFields_iff_witness :
    ((updateGame 2026 hexId bogusPayload 7 [celesteDoc hexId 5]).2 = .error .noFields ↔
      (allowedFields.all fun k => (jget bogusPayload k).isUndefined) = true) ∧
    updateGame 2026 hexId [] 7 [celesteDoc hexId 5] =
      ([celesteDoc hexId 5], .error .noFields) :=
  ⟨(update_noFields_iff 2026 hexId bogusPayload 7 [celesteDoc hexId 5]
      (by decide) (by decide)).1,
   (update_noFields_iff 2026 hexId bogusPayload 7 [celesteDoc hexId 5]
      (by decide) (by decide)).2.2⟩

/-- C6: `list` returns a permutation of exactly the records matching the
built filter, sorted by `date_ajout` descending; a `termine` or `favorite`
query value other than the literal `"true"`/`"false"` leaves the result
identical to not passing that parameter; no filters yields all records;
and with `termine="true"` every returned record matches `termine: true`
(in particular a boolean `termine` must be `true`). -/
theorem list_filters_correct (q : Query) (store : Store) :
    (listGames q store).Perm (store.filter (matchesFilter (buildFilter q))) ∧
    (∀ g, g ∈ listGames q store ↔ g ∈ store ∧ matchesFilter (buildFilter q) g = true) ∧
    List.Sorted dateDesc (listGames q store) ∧
    (∀ s, s ≠ "true" → s ≠ "false" →
      listGames { q with termine := some s } store =
        listGames { q with termine := none } store) ∧
    (∀ s, s ≠ "true" → s ≠ "false" →
      listGames { q with favorite := some s } store =
        listGames { q with favorite := none } store) ∧
    (listGames {} store).Perm store ∧
    (∀ g, g ∈ listGames { termine := some "true" } store →
      fieldMatches g.termine (.bool true) = true ∧ ∀ b, g.termine = .bool b → b = true) := by
  refine ⟨List.perm_insertionSort dateDesc _, ?_, List.sorted_insertionSort dateDesc _,
    ?_, ?_, ?_, ?_⟩
  · intro g
    exact ((List.perm_insertionSort dateDesc _).mem_iff).trans List.mem_filter
  · intro s h1 h2
    have hb : buildFilter { q with termine := some s } =
        buildFilter { q with termine := none } := by
      simp [buildFilter, boolFilter, h1, h2]
    simp [listGames, hb]
  · intro s h1 h2
    have hb : buildFilter { q with favorite := some s } =
        buildFilter { q with favorite := none } := by
      simp [buildFilter, boolFilter, h1, h2]
    simp [listGames, hb]
  · have hfilter : List.filter (matchesFilter (buildFilter {})) store = store :=
      List.filter_eq_self.mpr (fun g _ => rfl)
    exact (List.perm_insertionSort dateDesc _).trans (by rw [hfilter])
  · intro g hg
    have hmem := ((List.perm_insertionSort dateDesc _).mem_iff).mp hg
    have hmatch := (List.mem_filter.mp hmem).2
    have hfm : fieldMatches g.termine (.bool true) = true := by
      simpa [matchesFilter, buildFilter, boolFilter, strFilter, gameField] using hmatch
    refine ⟨hfm, fun b hb => ?_⟩
    rw [hb] at hfm
    simpa [fieldMatches, JsValue.beq] using hfm

/-- C6 witness: the ignored `termine="maybe"` filter on a concrete store. -/
theorem list_filters_correct_witness :
    listGames { termine := some "maybe" } [celesteDoc hexId 5] =
      listGames {} [celesteDoc hexId 5] :=
  (list_filters_correct {} [celesteDoc hexId 5]).2.2.2.1 "maybe" (by decide) (by decide)

/-- C7: validation accumulates: every error pushed for any schema field is
in the final list regardless of the other fields, and in create mode every
required field failing the presence test contributes its `<field> requis`
error — all missing required fields are listed, not just the first. -/
theorem validate_accumulates (year : Int) (p : Payload) (u : Bool) :
    (∀ kv ∈ gameSchema year, ∀ e ∈ checkField u p kv, e ∈ validateGame year p u) ∧
    (∀ kv ∈ gameSchema year, kv.2.required = true →
      isMissingValue (jget p kv.1) = true →
      (kv.1 ++ " requis") ∈ validateGame year p false) := by
  constructor
  · intro kv hkv e he
    rw [validateGame_eq_flatMap]
    exact List.mem_flatMap.mpr ⟨kv, hkv, he⟩
  · intro kv hkv hreq hmiss
    rw [validateGame_eq_flatMap]
    refine List.mem_flatMap.mpr ⟨kv, hkv, ?_⟩
    obtain ⟨k, s⟩ := kv
    simp only at hreq hmiss
    simp [checkField, hreq, hmiss]

/-- C7 witness: the empty create payload is reported with ALL THREE missing
required fields. -/
theorem validate_accumulates_witness :
    "titre requis" ∈ validateGame 2026 [] false ∧
    "genre requis" ∈ validateGame 2026 [] false ∧
    "plateforme requis" ∈ validateGame 2026 [] false :=
  ⟨(validate_accumulates 2026 [] false).2
      ("titre", { type := "string", required := true, minLength := some 1 })
      (by simp [gameSchema]) rfl rfl,
   (validate_accumulates 2026 [] false).2
      ("genre", { type := "array", required := true, minItems := some 1 })
      (by simp [gameSchema]) rfl rfl,
   (validate_accumulates 2026 [] false).2
      ("plateforme", { type := "array", required := true, minItems := some 1 })
      (by simp [gameSchema]) rfl rfl⟩

/-- C8: malformed ids fail with InvalidIdError on `getById` and `delete`
without consulting the store (any store state); a well-formed but absent id
fails with NotFoundError; the two error kinds are distinct; and deleting the
same id a second time fails with NotFoundError. -/
theorem id_errors_distinguished (idm idg : String) (g : Game) (store : Store)
    (hm : isValidObjectId idm = false)
    (hg : isValidObjectId idg = true)
    (habs : ∀ h ∈ store, Game._id h ≠ idg)
    (hnd : (store.map Game._id).Nodup)
    (hmem : g ∈ store)
    (hgv : isValidObjectId g._id = true) :
    getById idm store = .error .invalidId ∧
    deleteGame idm store = (store, .error .invalidId) ∧
    getById idg store = .error .notFound ∧
    ApiError.invalidId ≠ ApiError.notFound ∧
    deleteGame g._id store = (removeFirstById g._id store, .ok ()) ∧
    deleteGame g._id (removeFirstById g._id store) =
      (removeFirstById g._id store, .error .notFound) := by
  have hfind_abs : findById idg store = none := by
    apply List.find?_eq_none.mpr
    intro x hx hxe
    exact habs x hx (by simpa using hxe)
  have hfind_g : ∃ h, findById g._id store = some h := by
    have hs : (List.find? (fun x => x._id == g._id) store).isSome :=
      List.find?_isSome.mpr ⟨g, hmem, by simp⟩
    exact Option.isSome_iff_exists.mp hs
  obtain ⟨h0, hh0⟩ := hfind_g
  have hremoved : findById g._id (removeFirstById g._id store) = none :=
    findById_removeFirst_self hnd
  refine ⟨?_, ?_, ?_, ?_, ?_, ?_⟩
  · simp [getById, hm]
  · simp [deleteGame, hm]
  · simp [getById, hg, hfind_abs]
  · exact fun hcon => ApiError.noConfusion hcon
  · simp [deleteGame, hgv, hh0]
  · simp [deleteGame, hgv, hremoved]

/-- C8 witness: concrete malformed id `"zz"`, absent well-formed id, and a
double delete on a one-record store. -/
theorem id_errors_distinguished_witness :
    getById "zz" [celesteDoc hexId 5] = .error .invalidId ∧
    getById hexId2 [celesteDoc hexId 5] = .error .notFound ∧
    deleteGame hexId [celesteDoc hexId 5] = ([], .ok ()) ∧
    deleteGame hexId [] = ([], .error .notFound) := by
  have h := id_errors_distinguished "zz" hexId2 (celesteDoc hexId 5) [celesteDoc hexId 5]
    (by decide) (by decide)
    (by intro x hx; rw [List.mem_singleton] at hx; subst hx; decide)
    (by decide) (List.mem_singleton.mpr rfl) (by decide)
  exact ⟨h.1, h.2.2.1, h.2.2.2.2.1, h.2.2.2.2.2⟩

/-- C9: the Celeste create succeeds for every store state, timestamp and
fresh id, and the created record has `temps_jeu_heures = 0`,
`termine = false`, `favorite = false` and `date_ajout = date_modification`. -/
theorem create_celeste_defaults (year : Int) (now : Nat) (newId : String) (store : Store) :
    ∃ g, createGame year celestePayload now newId store = (store ++ [g], .ok g) ∧
      g.temps_jeu_heures = .num 0 ∧ g.termine = .bool false ∧
      g.favorite = .bool false ∧ g.date_ajout = g.date_modification :=
  ⟨celesteDoc newId now, rfl, rfl, rfl, rfl, rfl⟩

/-- C10: every record accepted by create stores `termine` and `favorite` as
the truthiness coercion of the payload values, and the `favorite` value —
of any type — never influences validation, so it is accepted without
error. -/
theorem create_coerces_booleans (year : Int) (p : Payload) (now : Nat) (newId : String)
    (store : Store) :
    (∀ (s' : Store) (g : Game), createGame year p now newId store = (s', .ok g) →
      g.termine = .bool (truthy (jget p "termine")) ∧
      g.favorite = .bool (truthy (jget p "favorite"))) ∧
    (∀ v : JsValue,
      validateGame year (("favorite", v) :: p) false = validateGame year p false) := by
  constructor
  · intro s' g h
    by_cases hv : validateGame year p false = []
    · simp [createGame, hv] at h
      obtain ⟨h1, h2⟩ := h
      subst h2
      exact ⟨rfl, rfl⟩
    · simp [createGame, hv] at h
  · exact fun v => validateGame_cons_not_schema gameSchema_key_ne_favorite

/-- C10 witness: creating with `favorite: "yes"` succeeds and stores
`favorite` as the boolean `true`, `termine` as `false`. -/
theorem create_coerces_booleans_witness :
    favYesDoc.termine = .bool false ∧ favYesDoc.favorite = .bool true :=
  (create_coerces_booleans 2026 (("favorite", JsValue.str "yes") :: celestePayload)
    5 hexId []).1 [favYesDoc] favYesDoc rfl

end BddJeux
